import Mathlib

/-!
Shallow embedding of the VectorDB-Benchmark phase-1 embedding pipeline
(`src/phase1_embedding`): the async Xinference dispatcher, the batch-size
tuner, the reservoir-sampling dataset loader, the HDF5 vector cache and the
serial benchmark orchestrator, together with proofs about the spec claims.

Conventions of the embedding:
* embedding vectors are `List ℚ` (numpy float rows abstracted to rationals);
* network interaction is modelled by passing the service reply (or the
  per-batch embedding outcome) as an explicit argument: `none`/`error`
  stands for "this call raised or failed", `some`/`ok` for a 2xx reply;
* Python while-loops are embedded with an explicit fuel argument that is a
  strict upper bound on the number of iterations actually performed;
* wall-clock timing is abstracted: the throughput a probe of batch size `b`
  would measure is given by an oracle `Nat → Option ℚ` (`none` = the probe
  raised an exception).
-/

namespace VDB

/-- One embedding vector (a numpy row), abstracted to a list of rationals. -/
abbrev Vec := List ℚ

/-- A document id (first TSV column). -/
abbrev DocId := String

/-- A corpus record: `{id, text}` as produced by `DatasetLoader`. -/
structure Document where
  id : DocId
  text : String
deriving DecidableEq, Repr

namespace AsyncXinferenceClient

/-- Reply of the inference endpoint to one `POST /embeddings` request, as seen
by `embed_batch_async`: a 2xx reply carrying `data` rows, a non-2xx status
(`response.raise_for_status` raises `httpx.HTTPStatusError`), or any other
exception (connect/timeout/JSON decode). -/
inductive EmbeddingsResponse
  | ok (data : List Vec)
  | httpError (status : Nat)
  | transportError
deriving DecidableEq

/-- `AsyncXinferenceClient.embed_batch_async` (async_xinference_client.py,
lines 126-165): empty input returns `None`; on a 2xx reply it collects
`item["embedding"] for item in data["data"]` and returns them as an array —
note that the source performs no check that the number of returned rows
equals `len(texts)`; both exception branches log and return `None`. -/
def embed_batch_async (texts : List String) (resp : EmbeddingsResponse) :
    Option (List Vec) :=
  if texts = [] then none
  else
    match resp with
    | .ok data => some data
    | .httpError _ => none
    | .transportError => none

/-- Batch partition `all_texts[i:i+batch_size] for i in range(0, len, batch_size)`
(async_xinference_client.py, lines 210-213), with the list length as fuel
(for `batch_size ≥ 1` the fuel is never exhausted). -/
def chunksAux (batch_size : Nat) : Nat → List α → List (List α)
  | 0, _ => []
  | _, [] => []
  | fuel + 1, t :: ts =>
      (t :: ts).take batch_size :: chunksAux batch_size fuel ((t :: ts).drop batch_size)

/-- The batches an `embed_concurrent` call partitions its input into. -/
def chunks (batch_size : Nat) (l : List α) : List (List α) :=
  chunksAux batch_size l.length l

/-- The per-batch failure check loop of `embed_concurrent` (lines 237-247):
`for i, result in enumerate(results)` collecting `failed_batches` (indices of
`None` results) and `valid_results` (the rest, in iteration order). -/
def split_failures : Nat → List (Option (List Vec)) → List Nat × List (List Vec)
  | _, [] => ([], [])
  | i, none :: rest =>
      let fv := split_failures (i + 1) rest
      (i :: fv.1, fv.2)
  | i, some r :: rest =>
      let fv := split_failures (i + 1) rest
      (fv.1, r :: fv.2)

/-- `AsyncXinferenceClient.embed_concurrent` (lines 187-257).

`embedOne` gives the outcome of `embed_batch_async` for each batch (that
function catches every exception, so a task never raises).  The crucial
modelled detail: with `show_progress = true` (the default) the source
iterates `asyncio.as_completed(tasks)` and appends each result in
*completion* order — `completionOrder` lists the task indices in the order
the batches completed; with `show_progress = false` it uses `asyncio.gather`,
which returns results in submission order.  The failure loop then returns
`None` if any batch failed, else `np.vstack(valid_results)` (row
concatenation in the collected order). -/
def embed_concurrent (embedOne : List String → Option (List Vec))
    (completionOrder : List Nat) (show_progress : Bool)
    (all_texts : List String) (batch_size : Nat) : Option (List Vec) :=
  if all_texts = [] then none
  else
    let batches := chunks batch_size all_texts
    let tasks := batches.map embedOne
    let results :=
      if show_progress then completionOrder.map (fun i => tasks.getD i none)
      else tasks
    let fv := split_failures 0 results
    if fv.1 = [] then some fv.2.flatten else none

/-- The while-loop of `AsyncXinferenceClient.find_optimal_batch_size`
(lines 310-371).  `throughputOf b` is the outcome of
`test_throughput_async(texts, model, b, test_iterations)`: `some t` when the
call returned metrics with `metrics["throughput"] = t`, `none` when it raised
(the `except` arm logs and breaks).  State: current `batch_size`, the best
`(best_batch_size, best_throughput)` pair so far and `previous_throughput`.
The degradation check (`previous > 0` and `t < previous * 0.9`) runs before
the best-pair update, exactly as in the source. -/
def find_optimal_loop (throughputOf : Nat → Option ℚ) (max_size texts_len : Nat) :
    Nat → Nat → Nat → ℚ → ℚ → Nat × ℚ
  | 0, _, best_b, best_t, _ => (best_b, best_t)
  | fuel + 1, batch_size, best_b, best_t, prev =>
      if batch_size ≤ max_size ∧ batch_size ≤ texts_len then
        match throughputOf batch_size with
        | none => (best_b, best_t)
        | some t =>
            if 0 < prev ∧ t < prev * (9 / 10) then (best_b, best_t)
            else
              find_optimal_loop throughputOf max_size texts_len fuel (batch_size * 2)
                (if best_t < t then batch_size else best_b)
                (if best_t < t then t else best_t) t
      else (best_b, best_t)

/-- `AsyncXinferenceClient.find_optimal_batch_size`: the loop started at
`start_size` with `best = (start_size, 0.0)` and `previous = 0.0`.  Fuel
`max_size + 1` strictly bounds the iteration count whenever
`start_size ≥ 1` (the size at least doubles each round and the loop exits
once it exceeds `max_size`). -/
def find_optimal_batch_size (throughputOf : Nat → Option ℚ) (texts_len : Nat)
    (start_size max_size : Nat) : Nat × ℚ :=
  find_optimal_loop throughputOf max_size texts_len (max_size + 1) start_size start_size 0 0

/-- Instrumentation with the same control flow as `find_optimal_loop`: the
list of `(batch_size, throughput)` pairs the search actually measured (a
size where the probe raised is not measured; the size that triggers the
degradation stop was measured and is included). -/
def tested_pairs (throughputOf : Nat → Option ℚ) (max_size texts_len : Nat) :
    Nat → Nat → ℚ → List (Nat × ℚ)
  | 0, _, _ => []
  | fuel + 1, batch_size, prev =>
      if batch_size ≤ max_size ∧ batch_size ≤ texts_len then
        match throughputOf batch_size with
        | none => []
        | some t =>
            if 0 < prev ∧ t < prev * (9 / 10) then [(batch_size, t)]
            else (batch_size, t) :: tested_pairs throughputOf max_size texts_len fuel (batch_size * 2) t
      else []

/-- The measured pairs of a full `find_optimal_batch_size` run. -/
def tested_pairs_run (throughputOf : Nat → Option ℚ) (texts_len : Nat)
    (start_size max_size : Nat) : List (Nat × ℚ) :=
  tested_pairs throughputOf max_size texts_len (max_size + 1) start_size 0

/-- Reply to `GET /models` as seen by `list_models`: `some entries` when the
request, status check and JSON decode all succeed (`data.get("data", [])`),
`none` when any of them raises. Model entries are abstracted to their ids. -/
abbrev ModelsResponse := Option (List String)

/-- `AsyncXinferenceClient.list_models` (lines 75-89): the whole body is
wrapped in `try/except Exception`, the except arm logs and returns `[]` —
so the function is total and never raises. -/
def list_models (resp : ModelsResponse) : List String :=
  match resp with
  | some data => data
  | none => []

/-- The `try` block of `check_health` evaluates `list_models`; since
`list_models` catches every exception internally, the call always lands in
the `ok` arm. -/
def list_models_call (resp : ModelsResponse) : Except String (List String) :=
  Except.ok (list_models resp)

/-- `AsyncXinferenceClient.check_health` (lines 91-104): `try` calls
`list_models`, logs, and returns `True`; the `except` arm would return
`False` but is unreachable because `list_models` never raises. -/
def check_health (resp : ModelsResponse) : Bool :=
  match list_models_call resp with
  | .ok _ => true
  | .error _ => false

end AsyncXinferenceClient

namespace XinferenceClient

/-- `XinferenceClient.list_models` (xinference_client.py, lines 40-52): same
catch-all shape as the async client, over the OpenAI SDK listing call. -/
def list_models (resp : AsyncXinferenceClient.ModelsResponse) : List String :=
  match resp with
  | some data => data
  | none => []

/-- The `try` block of the sync `check_health`; `list_models` is total. -/
def list_models_call (resp : AsyncXinferenceClient.ModelsResponse) :
    Except String (List String) :=
  Except.ok (list_models resp)

/-- `XinferenceClient.check_health` (xinference_client.py, lines 54-67). -/
def check_health (resp : AsyncXinferenceClient.ModelsResponse) : Bool :=
  match list_models_call resp with
  | .ok _ => true
  | .error _ => false

end XinferenceClient

namespace DatasetLoader

/-- The collect loop of `DatasetLoader.load_collection` (dataset_loader.py,
lines 86-121) over the stream of valid records `docs` (malformed lines are
already absent from `docs`, as `load_collection_iter` skips them): append
each record and break once `max_samples and len(documents) >= max_samples`.
Python truthiness: `max_samples = None` and `max_samples = 0` never break. -/
def load_collection_collect (docs : List Document) (max_samples : Option Nat) :
    List Document :=
  match max_samples with
  | none => docs
  | some m => if m = 0 then docs else docs.take m

/-- `DatasetLoader.load_collection`: after collecting, the source shuffles and
truncates when `max_samples and len(documents) > max_samples`; the collect
loop stops at exactly `max_samples` records, so that branch is dead code —
`shuffleTrunc` stands for it and is provably never applied. -/
def load_collection (shuffleTrunc : List Document → List Document)
    (docs : List Document) (max_samples : Option Nat) : List Document :=
  let documents := load_collection_collect docs max_samples
  match max_samples with
  | none => documents
  | some m =>
      if m ≠ 0 ∧ m < documents.length then shuffleTrunc documents else documents

/-- The reservoir loop of `DatasetLoader.sample_documents` (lines 154-161):
`for i, doc in enumerate(stream)`, the first `num_samples` records fill the
reservoir; afterwards `j = random.randint(0, i)` and the record replaces
slot `j` when `j < num_samples`.  `randint i` models the value drawn at loop
index `i` from the stream seeded by `random.seed(seed)`. -/
def reservoir_loop (randint : Nat → Nat) (num_samples : Nat) :
    List Document → Nat → List Document → List Document
  | [], _, sampled => sampled
  | doc :: rest, i, sampled =>
      if sampled.length < num_samples then
        reservoir_loop randint num_samples rest (i + 1) (sampled ++ [doc])
      else
        reservoir_loop randint num_samples rest (i + 1)
          (if randint i < num_samples then sampled.set (randint i) doc else sampled)

/-- `DatasetLoader.sample_documents` (lines 123-164): count the valid records;
when `num_samples >= total_docs` reload everything via `load_collection()`
(no `max_samples`, hence no shuffling); otherwise run reservoir sampling
seeded by `random.seed(seed)`. -/
def sample_documents (randint : Nat → Nat) (docs : List Document)
    (num_samples : Nat) : List Document :=
  let total_docs := docs.length
  if total_docs ≤ num_samples then
    load_collection (fun l => l) docs none
  else
    reservoir_loop randint num_samples docs 0 []

end DatasetLoader

namespace VectorCache

/-- The two HDF5 regions of a cache file (vector_cache.py): the
`total_vectors × vector_dim` dataset `vectors` and the parallel `ids`
dataset, each modelled as a map from row index to the cell contents
(`none` = never written). -/
@[ext]
structure Store where
  vectors : Nat → Option Vec
  ids : Nat → Option DocId

/-- `VectorCache.write_batch` (vector_cache.py, lines 106-134):
`batch_size = len(vectors)`, `end_idx = start_idx + batch_size`, then
`h5file["vectors"][start_idx:end_idx] = vectors` and
`h5file["ids"][start_idx:end_idx] = ids` (byte-encoded), followed by a
flush; the flush has no observable effect on the stored contents. -/
def write_batch (vectors : List Vec) (ids : List DocId) (start_idx : Nat)
    (s : Store) : Store :=
  let end_idx := start_idx + vectors.length
  { vectors := fun n =>
      if start_idx ≤ n ∧ n < end_idx then vectors[n - start_idx]? else s.vectors n
    ids := fun n =>
      if start_idx ≤ n ∧ n < end_idx then ids[n - start_idx]? else s.ids n }

/-- One queued `write_batch` call: the rows, their ids, and the destination
`start_idx`. -/
structure CacheBatch where
  vectors : List Vec
  ids : List DocId
  start_idx : Nat

/-- Apply a sequence of `write_batch` calls in list order. -/
def write_batches (bs : List CacheBatch) (s : Store) : Store :=
  bs.foldl (fun st b => write_batch b.vectors b.ids b.start_idx st) s

/-- The offset ranges `[start_idx, start_idx + len)` of two batches do not
overlap. -/
def BatchDisjoint (b1 b2 : CacheBatch) : Prop :=
  b1.start_idx + b1.vectors.length ≤ b2.start_idx ∨
    b2.start_idx + b2.vectors.length ≤ b1.start_idx

instance (b1 b2 : CacheBatch) : Decidable (BatchDisjoint b1 b2) :=
  inferInstanceAs (Decidable (_ ∨ _))

end VectorCache

namespace AsyncInferenceBenchmark

/-- The batch preparation loop of
`AsyncInferenceBenchmark.generate_and_cache_vectors_async`
(async_inference_benchmark.py, lines 230-238): for
`i in range(0, len(documents), batch_size)` collect
`(batch_texts, batch_ids, i)`.  Fuel as in `chunks`. -/
def doc_batches_aux (batch_size : Nat) :
    Nat → Nat → List Document → List (List String × List DocId × Nat)
  | 0, _, _ => []
  | _, _, [] => []
  | fuel + 1, i, d :: rest =>
      ((d :: rest).take batch_size |>.map Document.text,
        (d :: rest).take batch_size |>.map Document.id, i) ::
        doc_batches_aux batch_size fuel (i + batch_size) ((d :: rest).drop batch_size)

/-- All `(texts, ids, start_idx)` batches of a document list. -/
def doc_batches (batch_size : Nat) (documents : List Document) :
    List (List String × List DocId × Nat) :=
  doc_batches_aux batch_size documents.length 0 documents

/-- The write-back loop of `generate_and_cache_vectors_async` (lines 254-267):
each batch task is awaited; a `None` result is logged and **skipped**
(`continue`), any other result is written to the cache at the batch's
offset via `cache.write_batch(embeddings, batch_ids, start_idx)`. -/
def generate_and_cache_vectors (embedOne : List String → Option (List Vec))
    (documents : List Document) (batch_size : Nat) (cache : VectorCache.Store) :
    VectorCache.Store :=
  (doc_batches batch_size documents).foldl
    (fun st b =>
      match embedOne b.1 with
      | none => st
      | some embeddings => VectorCache.write_batch embeddings b.2.1 b.2.2 st)
    cache

/-- The per-model loop shared by
`AsyncInferenceBenchmark.run_serial_benchmark_async`
(async_inference_benchmark.py, lines 410-461) and
`InferenceBenchmark.run_serial_benchmark` (inference_benchmark.py, lines
380-435): `for model_config in models: result = benchmark_model(...);
results.append(result); save_results()`.  Neither loop wraps the per-model
call in `try/except`, so an exception raised while benchmarking one model
(`Except.error`) propagates: the loop stops, the accumulated results are
kept on the instance, and the remaining models are never visited.  Returns
the accumulated per-model results and the propagated exception, if any. -/
def run_serial_benchmark (benchmark_model : μ → Except ε ρ) :
    List μ → List ρ → List ρ × Option ε
  | [], results => (results, none)
  | m :: rest, results =>
      match benchmark_model m with
      | .error e => (results, some e)
      | .ok r => run_serial_benchmark benchmark_model rest (results ++ [r])

/-- Instrumentation with the same control flow: the models on which
`benchmark_model` was actually invoked during `run_serial_benchmark`. -/
def attempted_models (benchmark_model : μ → Except ε ρ) : List μ → List μ
  | [] => []
  | m :: rest =>
      match benchmark_model m with
      | .error _ => [m]
      | .ok _ => m :: attempted_models benchmark_model rest

end AsyncInferenceBenchmark

/-! ### Concrete fixtures used by the claim theorems and witnesses -/

/-- Stub service: the embedding of a text is the single-entry row `[1]` for
the text `"a"` and `[2]` for any other text (a stand-in for a healthy,
order-preserving endpoint with distinguishable rows). -/
def stub_row (t : String) : Vec :=
  [if t = "a" then (1 : ℚ) else 2]

/-- Per-batch embedding outcome against the stub service: every batch
succeeds, one row per text. -/
def stub_embed_ok (ts : List String) : Option (List Vec) :=
  some (ts.map stub_row)

/-- Per-batch embedding outcome where the batch `["a"]` fails (the service
times out on it) and every other batch succeeds with one row per text. -/
def stub_embed_fail_a (ts : List String) : Option (List Vec) :=
  if ts = ["a"] then none else some (ts.map stub_row)

/-- The two-text input of the ordering counterexample. -/
def two_texts : List String := ["a", "bb"]

/-- A five-text batch. -/
def five_texts : List String := ["t1", "t2", "t3", "t4", "t5"]

/-- A 2xx reply carrying only three embedding rows. -/
def three_row_reply : AsyncXinferenceClient.EmbeddingsResponse :=
  .ok [[1], [2], [3]]

/-- Throughput oracle of the spec scenario: sizes 64/128/256/512 measure
100/180/190/150 docs per second.  Size 1024 would measure 1000 — far above
the rest — so the scenario also shows the search really stops after 512
(1024 is never probed). -/
def scenario_tp (b : Nat) : Option ℚ :=
  if b = 64 then some 100
  else if b = 128 then some 180
  else if b = 256 then some 190
  else if b = 512 then some 150
  else if b = 1024 then some 1000
  else none

/-- A per-model benchmark stub over `Nat` model configs: model `0` raises
(error code `7`), every other model succeeds and reports itself. -/
def bm_fail (m : Nat) : Except Nat Nat :=
  if m = 0 then .error 7 else .ok m

/-- A two-document corpus whose first one-document batch fails against
`stub_embed_fail_a`. -/
def two_docs : List Document := [⟨"d0", "a"⟩, ⟨"d1", "bb"⟩]

/-- A three-document corpus for the sampler fixtures. -/
def three_docs : List Document := [⟨"d0", "aaaa"⟩, ⟨"d1", "bbbb"⟩, ⟨"d2", "cccc"⟩]

/-- A deterministic stand-in for the seeded `random.randint` stream. -/
def fixture_randint (i : Nat) : Nat := i % 2

/-- A cache store with nothing written yet. -/
def empty_store : VectorCache.Store := ⟨fun _ => none, fun _ => none⟩

/-- Two batches owning the disjoint offset ranges `[0, 1)` and `[1, 2)`. -/
def fixture_batches : List VectorCache.CacheBatch :=
  [⟨[[1]], ["d0"], 0⟩, ⟨[[2]], ["d1"], 1⟩]

/-! ### Sampler lemmas -/

/-- Length of the reservoir after the loop: the reservoir fills up to
`num_samples` and replacement never changes its size. -/
theorem reservoir_loop_length (randint : Nat → Nat) (k : Nat) :
    ∀ (rest : List Document) (i : Nat) (sampled : List Document),
      sampled.length ≤ k →
      (DatasetLoader.reservoir_loop randint k rest i sampled).length =
        min k (sampled.length + rest.length)
  | [], i, sampled, h => by
      simp only [DatasetLoader.reservoir_loop, List.length_nil]
      omega
  | d :: rest, i, sampled, h => by
      simp only [DatasetLoader.reservoir_loop]
      by_cases hlt : sampled.length < k
      · rw [if_pos hlt,
          reservoir_loop_length randint k rest (i + 1) (sampled ++ [d]) (by simp; omega)]
        simp
        omega
      · rw [if_neg hlt]
        have hlen :
            (if randint i < k then sampled.set (randint i) d else sampled).length =
              sampled.length := by
          split <;> simp
        rw [reservoir_loop_length randint k rest (i + 1) _ (by rw [hlen]; omega), hlen]
        simp
        omega

/-- The reservoir loop only consumes the `randint` stream: two pointwise
equal streams produce the same reservoir. -/
theorem reservoir_loop_congr (r1 r2 : Nat → Nat) (k : Nat) (hr : ∀ n, r1 n = r2 n) :
    ∀ (rest : List Document) (i : Nat) (sampled : List Document),
      DatasetLoader.reservoir_loop r1 k rest i sampled =
        DatasetLoader.reservoir_loop r2 k rest i sampled
  | [], _, _ => rfl
  | d :: rest, i, sampled => by
      simp only [DatasetLoader.reservoir_loop, hr i]
      split
      · exact reservoir_loop_congr r1 r2 k hr rest (i + 1) _
      · exact reservoir_loop_congr r1 r2 k hr rest (i + 1) _

/-- Claim C7: for a corpus of `n` valid records and a requested sample size
`k ≤ n`, `sample_documents` returns exactly `k` records, and two runs over
the same input order whose seeded `randint` streams agree pointwise (same
seed ⇒ same Mersenne-Twister stream) return identical output. -/
theorem claim_C7_sampler_exact_and_deterministic
    (r1 r2 : Nat → Nat) (docs : List Document) (k : Nat)
    (hk : k ≤ docs.length) (hr : ∀ n, r1 n = r2 n) :
    (DatasetLoader.sample_documents r1 docs k).length = k ∧
      DatasetLoader.sample_documents r1 docs k =
        DatasetLoader.sample_documents r2 docs k := by
  unfold DatasetLoader.sample_documents
  by_cases hle : docs.length ≤ k
  · refine ⟨?_, by simp [hle]⟩
    simp only [if_pos hle, DatasetLoader.load_collection,
      DatasetLoader.load_collection_collect]
    omega
  · rw [if_neg hle, if_neg hle]
    refine ⟨?_, reservoir_loop_congr r1 r2 k hr docs 0 []⟩
    rw [reservoir_loop_length r1 k docs 0 [] (by simp)]
    simp only [List.length_nil, Nat.zero_add]
    omega

/-- Witness for C7 at the three-document fixture with sample size 2. -/
theorem claim_C7_witness :
    (DatasetLoader.sample_documents fixture_randint three_docs 2).length = 2 ∧
      DatasetLoader.sample_documents fixture_randint three_docs 2 =
        DatasetLoader.sample_documents fixture_randint three_docs 2 :=
  claim_C7_sampler_exact_and_deterministic fixture_randint fixture_randint three_docs 2
    (by decide) (fun _ => rfl)

/-- Claim C8: for a corpus of `n` valid records and a requested sample size
`k ≥ n`, `sample_documents` returns the whole corpus unchanged — all `n`
records, in the original input order, with no record duplicated (the
`num_samples >= total_docs` branch reloads the collection with no
`max_samples`, hence without shuffling). -/
theorem claim_C8_sampler_identity (randint : Nat → Nat) (docs : List Document)
    (k : Nat) (hk : docs.length ≤ k) :
    DatasetLoader.sample_documents randint docs k = docs := by
  unfold DatasetLoader.sample_documents
  simp [hk, DatasetLoader.load_collection, DatasetLoader.load_collection_collect]

/-- Witness for C8 at the three-document fixture with sample size 5. -/
theorem claim_C8_witness :
    DatasetLoader.sample_documents fixture_randint three_docs 5 = three_docs :=
  claim_C8_sampler_identity fixture_randint three_docs 5 (by decide)

/-! ### Batch-size tuner lemmas -/

/-- Every measured pair is a successful probe of the throughput oracle. -/
theorem mem_tested_pairs (tp : Nat → Option ℚ) (max_size texts_len : Nat) :
    ∀ (fuel b : Nat) (prev : ℚ) (p : Nat × ℚ),
      p ∈ AsyncXinferenceClient.tested_pairs tp max_size texts_len fuel b prev →
      tp p.1 = some p.2
  | 0, _, _, _, h => by simp [AsyncXinferenceClient.tested_pairs] at h
  | fuel + 1, b, prev, p, h => by
      simp only [AsyncXinferenceClient.tested_pairs] at h
      by_cases hcond : b ≤ max_size ∧ b ≤ texts_len
      · rw [if_pos hcond] at h
        cases htp : tp b with
        | none => simp only [htp] at h; simp at h
        | some t =>
            simp only [htp] at h
            by_cases hdeg : 0 < prev ∧ t < prev * (9 / 10)
            · rw [if_pos hdeg] at h
              simp only [List.mem_singleton] at h
              rw [h]
              exact htp
            · rw [if_neg hdeg] at h
              rcases List.mem_cons.mp h with hh | hh
              · rw [hh]
                exact htp
              · exact mem_tested_pairs tp max_size texts_len fuel (b * 2) t p hh
      · rw [if_neg hcond] at h
        simp at h

/-- Loop invariant of `find_optimal_loop`: the result is the incoming best
pair or one of the pairs measured from here on, its throughput dominates the
incoming best, and it dominates every measured throughput (in particular the
one that triggers the degradation stop, which is below `0.9 × previous`). -/
theorem find_optimal_loop_spec (tp : Nat → Option ℚ) (max_size texts_len : Nat) :
    ∀ (fuel b bb : Nat) (bt prev : ℚ), 0 ≤ bt → prev ≤ bt →
      (AsyncXinferenceClient.find_optimal_loop tp max_size texts_len fuel b bb bt prev
          = (bb, bt) ∨
        AsyncXinferenceClient.find_optimal_loop tp max_size texts_len fuel b bb bt prev ∈
          AsyncXinferenceClient.tested_pairs tp max_size texts_len fuel b prev) ∧
      bt ≤ (AsyncXinferenceClient.find_optimal_loop tp max_size texts_len fuel b bb bt prev).2 ∧
      ∀ p ∈ AsyncXinferenceClient.tested_pairs tp max_size texts_len fuel b prev,
        p.2 ≤ (AsyncXinferenceClient.find_optimal_loop tp max_size texts_len fuel b bb bt prev).2
  | 0, b, bb, bt, prev, h0, hp => by
      simp [AsyncXinferenceClient.find_optimal_loop, AsyncXinferenceClient.tested_pairs]
  | fuel + 1, b, bb, bt, prev, h0, hp => by
      simp only [AsyncXinferenceClient.find_optimal_loop, AsyncXinferenceClient.tested_pairs]
      by_cases hcond : b ≤ max_size ∧ b ≤ texts_len
      · rw [if_pos hcond, if_pos hcond]
        cases htp : tp b with
        | none => simp [htp]
        | some t =>
            simp only [htp]
            by_cases hdeg : 0 < prev ∧ t < prev * (9 / 10)
            · rw [if_pos hdeg, if_pos hdeg]
              refine ⟨Or.inl rfl, le_refl bt, ?_⟩
              intro p hpmem
              simp only [List.mem_singleton] at hpmem
              rw [hpmem]
              have h1 := hdeg.1
              have h2 := hdeg.2
              show t ≤ bt
              linarith
            · rw [if_neg hdeg, if_neg hdeg]
              have hbt' : (0 : ℚ) ≤ if bt < t then t else bt := by
                split <;> linarith
              have hprev' : t ≤ if bt < t then t else bt := by
                split <;> linarith
              obtain ⟨ih1, ih2, ih3⟩ :=
                find_optimal_loop_spec tp max_size texts_len fuel (b * 2)
                  (if bt < t then b else bb) (if bt < t then t else bt) t hbt' hprev'
              have hbtle : bt ≤ if bt < t then t else bt := by
                split <;> linarith
              refine ⟨?_, le_trans hbtle ih2, ?_⟩
              · rcases ih1 with h | h
                · by_cases hbt : bt < t
                  · refine Or.inr ?_
                    rw [h]
                    simp [hbt]
                  · exact Or.inl (by rw [h]; simp [hbt])
                · exact Or.inr (List.mem_cons_of_mem _ h)
              · intro p hpmem
                rcases List.mem_cons.mp hpmem with hh | hh
                · rw [hh]
                  exact le_trans hprev' ih2
                · exact ih3 p hh
      · rw [if_neg hcond, if_neg hcond]
        simp

/-- The scenario oracle only reports positive throughputs. -/
theorem scenario_tp_pos : ∀ b t, scenario_tp b = some t → 0 < t := by
  intro b t h
  unfold scenario_tp at h
  split_ifs at h <;> simp_all <;> linarith

/-- Claim C3: `find_optimal_batch_size` returns a `(batch_size, throughput)`
pair that was actually measured and whose throughput is the maximum over all
tested sizes, independent of where the doubling search stopped; and in the
spec scenario — measured throughputs 100/180/190/150 at sizes 64/128/256/512
— the search stops after size 512 (150 < 0.9 × 190; size 1024 is never
probed even though the oracle could answer it) and returns `(256, 190)`. -/
theorem claim_C3_tuner_best_is_max (tp : Nat → Option ℚ)
    (texts_len start_size max_size : Nat)
    (hpos : ∀ b t, tp b = some t → 0 < t)
    (hne : AsyncXinferenceClient.tested_pairs_run tp texts_len start_size max_size ≠ []) :
    (AsyncXinferenceClient.find_optimal_batch_size tp texts_len start_size max_size ∈
        AsyncXinferenceClient.tested_pairs_run tp texts_len start_size max_size ∧
      ∀ p ∈ AsyncXinferenceClient.tested_pairs_run tp texts_len start_size max_size,
        p.2 ≤ (AsyncXinferenceClient.find_optimal_batch_size tp texts_len start_size max_size).2) ∧
    AsyncXinferenceClient.find_optimal_batch_size scenario_tp 100000 64 2048 = (256, 190) ∧
    AsyncXinferenceClient.tested_pairs_run scenario_tp 100000 64 2048 =
      [(64, 100), (128, 180), (256, 190), (512, 150)] := by
  obtain ⟨ih1, ih2, ih3⟩ :=
    find_optimal_loop_spec tp max_size texts_len (max_size + 1) start_size start_size 0 0
      le_rfl le_rfl
  simp only [AsyncXinferenceClient.tested_pairs_run] at hne
  refine ⟨⟨?_, ?_⟩, ?_, ?_⟩
  · simp only [AsyncXinferenceClient.find_optimal_batch_size,
      AsyncXinferenceClient.tested_pairs_run]
    rcases ih1 with h | h
    · exfalso
      obtain ⟨p, hp⟩ := List.exists_mem_of_ne_nil _ hne
      have h1 := ih3 p hp
      have h2 := hpos p.1 p.2 (mem_tested_pairs tp max_size texts_len _ _ _ p hp)
      rw [h] at h1
      simp at h1
      linarith
    · exact h
  · simpa only [AsyncXinferenceClient.find_optimal_batch_size,
      AsyncXinferenceClient.tested_pairs_run] using ih3
  · norm_num [AsyncXinferenceClient.find_optimal_batch_size,
      AsyncXinferenceClient.find_optimal_loop, scenario_tp]
  · norm_num [AsyncXinferenceClient.tested_pairs_run,
      AsyncXinferenceClient.tested_pairs, scenario_tp]

/-- Witness for C3: the general part of the claim instantiated at the
scenario oracle. -/
theorem claim_C3_witness :
    AsyncXinferenceClient.find_optimal_batch_size scenario_tp 100000 64 2048 ∈
        AsyncXinferenceClient.tested_pairs_run scenario_tp 100000 64 2048 ∧
      ∀ p ∈ AsyncXinferenceClient.tested_pairs_run scenario_tp 100000 64 2048,
        p.2 ≤ (AsyncXinferenceClient.find_optimal_batch_size scenario_tp 100000 64 2048).2 :=
  (claim_C3_tuner_best_is_max scenario_tp 100000 64 2048 scenario_tp_pos
    (by
      norm_num [AsyncXinferenceClient.tested_pairs_run,
        AsyncXinferenceClient.tested_pairs, scenario_tp]
      exact List.cons_ne_nil _ _)).1

/-- Counterexample to claim C6: with an oracle on which every probe raises,
`find_optimal_batch_size` does not fail — its very first iteration hits the
`except` arm, breaks, and the function returns the initial pair
`(start_size, 0.0)`; no `NoViableBatchSize` error exists in the source. -/
theorem claim_C6_counterexample :
    AsyncXinferenceClient.find_optimal_batch_size (fun _ => none) 1000 64 2048 = (64, 0) := by
  norm_num [AsyncXinferenceClient.find_optimal_batch_size,
    AsyncXinferenceClient.find_optimal_loop]

/-- Amended claim C6: when no candidate batch size ever produces a successful
trial, `find_optimal_batch_size` still returns a pair — `(start_size, 0.0)`
— and the set of measured sizes is empty; there is no failure path. -/
theorem claim_C6_returns_default_pair (tp : Nat → Option ℚ)
    (texts_len start_size max_size : Nat) (h : ∀ b, tp b = none) :
    AsyncXinferenceClient.find_optimal_batch_size tp texts_len start_size max_size =
        (start_size, 0) ∧
      AsyncXinferenceClient.tested_pairs_run tp texts_len start_size max_size = [] := by
  constructor
  · simp only [AsyncXinferenceClient.find_optimal_batch_size,
      AsyncXinferenceClient.find_optimal_loop, h, ite_self]
  · simp only [AsyncXinferenceClient.tested_pairs_run,
      AsyncXinferenceClient.tested_pairs, h, ite_self]

/-- Witness for C6 at an all-failing oracle. -/
theorem claim_C6_witness :
    AsyncXinferenceClient.find_optimal_batch_size (fun _ => none) 500 32 4096 = (32, 0) ∧
      AsyncXinferenceClient.tested_pairs_run (fun _ => none) 500 32 4096 = [] :=
  claim_C6_returns_default_pair (fun _ => none) 500 32 4096 (fun _ => rfl)

/-! ### Dispatcher claims -/

/-- Counterexample to claim C2: a batch of 5 texts answered with only 3
embedding rows is returned by `embed_batch_async` as a successful 3-row
result, not surfaced as a `PartialResponse` failure — the source never
compares `len(data["data"])` with `len(texts)`. -/
theorem claim_C2_counterexample :
    AsyncXinferenceClient.embed_batch_async five_texts three_row_reply =
        some [[1], [2], [3]] ∧
      AsyncXinferenceClient.embed_batch_async five_texts three_row_reply ≠ none ∧
      five_texts.length = 5 ∧ ([[1], [2], [3]] : List Vec).length = 3 := by
  refine ⟨?_, ?_, rfl, rfl⟩ <;>
    simp [AsyncXinferenceClient.embed_batch_async, five_texts, three_row_reply]

/-- Amended claim C2: `embed_batch_async` performs no cardinality check: for
every non-empty batch, a 2xx reply is returned exactly as its data rows —
even when the reply holds fewer embeddings than texts submitted — and only
transport or HTTP-status errors (and empty input) yield a failure. -/
theorem claim_C2_no_cardinality_check (texts : List String) (data : List Vec)
    (h : texts ≠ []) :
    AsyncXinferenceClient.embed_batch_async texts (.ok data) = some data ∧
      AsyncXinferenceClient.embed_batch_async texts .transportError = none ∧
      ∀ s, AsyncXinferenceClient.embed_batch_async texts (.httpError s) = none := by
  refine ⟨?_, ?_, fun s => ?_⟩ <;> simp [AsyncXinferenceClient.embed_batch_async, h]

/-- Witness for C2 at the 5-text batch with a 3-row reply. -/
theorem claim_C2_witness :
    AsyncXinferenceClient.embed_batch_async five_texts (.ok [[1], [2], [3]]) =
        some [[1], [2], [3]] ∧
      AsyncXinferenceClient.embed_batch_async five_texts .transportError = none ∧
      ∀ s, AsyncXinferenceClient.embed_batch_async five_texts (.httpError s) = none :=
  claim_C2_no_cardinality_check five_texts [[1], [2], [3]] (by simp [five_texts])

/-- Claim C10: `check_health` returns `True` for every service state — an
unreachable endpoint (`none` reply) and an endpoint reporting zero models
(`some []`) included — in both clients, because `list_models` catches every
exception and returns `[]`, leaving the exception branch of `check_health`
unreachable; the health gate never reports the service unhealthy. -/
theorem claim_C10_health_check_always_true :
    (∀ resp, AsyncXinferenceClient.check_health resp = true) ∧
      (∀ resp, XinferenceClient.check_health resp = true) ∧
      AsyncXinferenceClient.list_models none = [] ∧
      XinferenceClient.list_models none = [] :=
  ⟨fun _ => rfl, fun _ => rfl, rfl, rfl⟩

/-! ### Orchestrator claims -/

/-- Counterexample to claim C4: with two queued models where benchmarking
the first raises (`bm_fail 0 = Except.error 7`), the serial loop neither
records the failure nor proceeds: the exception propagates out of
`run_serial_benchmark`, no result is accumulated, and model 1 is never
benchmarked (neither loop wraps the per-model call in `try/except`). -/
theorem claim_C4_counterexample :
    AsyncInferenceBenchmark.run_serial_benchmark bm_fail [0, 1] [] = ([], some 7) ∧
      AsyncInferenceBenchmark.attempted_models bm_fail [0, 1] = [0] ∧
      AsyncInferenceBenchmark.attempted_models bm_fail [0, 1] ≠ [0, 1] := by
  refine ⟨rfl, rfl, by decide⟩

/-- Amended claim C4: an exception raised while benchmarking one model
aborts the multi-model run at that model: `run_serial_benchmark` returns the
results accumulated so far together with the propagated exception, and no
remaining queued model is benchmarked. -/
theorem claim_C4_failure_aborts_run {μ ε ρ : Type} (bm : μ → Except ε ρ)
    (m : μ) (rest : List μ) (acc : List ρ) (e : ε) (h : bm m = .error e) :
    AsyncInferenceBenchmark.run_serial_benchmark bm (m :: rest) acc = (acc, some e) ∧
      AsyncInferenceBenchmark.attempted_models bm (m :: rest) = [m] := by
  constructor <;>
    simp [AsyncInferenceBenchmark.run_serial_benchmark,
      AsyncInferenceBenchmark.attempted_models, h]

/-- Witness for C4 at the two-model queue whose first model fails. -/
theorem claim_C4_witness :
    AsyncInferenceBenchmark.run_serial_benchmark bm_fail [0, 1] [] = ([], some 7) ∧
      AsyncInferenceBenchmark.attempted_models bm_fail [0, 1] = [0] :=
  claim_C4_failure_aborts_run bm_fail 0 [1] [] 7 rfl

/-! ### Concurrent embedding lemmas -/

/-- If any collected result is `None`, the failure-check loop reports at
least one failed batch index. -/
theorem split_failures_ne_nil :
    ∀ (results : List (Option (List Vec))) (i : Nat), none ∈ results →
      (AsyncXinferenceClient.split_failures i results).1 ≠ []
  | [], i, h => by simp at h
  | none :: rest, i, h => by
      simp [AsyncXinferenceClient.split_failures]
  | some r :: rest, i, h => by
      simp only [AsyncXinferenceClient.split_failures]
      exact split_failures_ne_nil rest (i + 1) (by simpa using h)

/-- A failed task is seen by the completion-order loop: when the completion
order is a permutation of the task indices, a `None` task shows up among the
collected results. -/
theorem none_mem_completion_collect (tasks : List (Option (List Vec)))
    (order : List Nat) (hperm : order.Perm (List.range tasks.length))
    (h : none ∈ tasks) :
    none ∈ order.map (fun i => tasks.getD i none) := by
  obtain ⟨i, hi, hget⟩ := List.getElem_of_mem h
  have hio : i ∈ order := hperm.mem_iff.mpr (List.mem_range.mpr hi)
  refine List.mem_map.mpr ⟨i, hio, ?_⟩
  have hsome : tasks[i]? = some none := by
    rw [List.getElem?_eq_getElem hi, hget]
  simp [List.getD_eq_getElem?_getD, hsome]

/-- Amended claim C5: if at least one of the `m` batches of an
`embed_concurrent` call fails, the whole call fails — it returns `None`, no
combined array of the successful batches, on both the `as_completed` path
(any completion order) and the `gather` path — and since a failed call
yields no array, no vectors of such a call can be handed to the Cache
Writer.  However, the repository's cache-writing generation path
(`generate_and_cache_vectors_async`) does not go through `embed_concurrent`:
it dispatches per-batch, skips a failed batch (`continue`) and writes every
successful sibling batch — witnessed here by the second conjunct, where the
surviving batch of a partially-failed two-batch call is written at offset 1. -/
theorem claim_C5_whole_call_fails (embedOne : List String → Option (List Vec))
    (order : List Nat) (sp : Bool) (all_texts : List String) (batch_size : Nat)
    (hperm : order.Perm
      (List.range (AsyncXinferenceClient.chunks batch_size all_texts).length))
    (hfail : ∃ b ∈ AsyncXinferenceClient.chunks batch_size all_texts, embedOne b = none) :
    AsyncXinferenceClient.embed_concurrent embedOne order sp all_texts batch_size = none ∧
      (AsyncInferenceBenchmark.generate_and_cache_vectors stub_embed_fail_a two_docs 1
          empty_store).vectors 1 = some [2] := by
  constructor
  · simp only [AsyncXinferenceClient.embed_concurrent]
    by_cases hnil : all_texts = []
    · simp [hnil]
    · rw [if_neg hnil]
      have htasks : none ∈ (AsyncXinferenceClient.chunks batch_size all_texts).map embedOne := by
        obtain ⟨b, hb, hbe⟩ := hfail
        exact List.mem_map.mpr ⟨b, hb, hbe⟩
      have hres :
          none ∈ (if sp then order.map
              (fun i => ((AsyncXinferenceClient.chunks batch_size all_texts).map embedOne).getD i none)
            else (AsyncXinferenceClient.chunks batch_size all_texts).map embedOne) := by
        cases sp
        · simpa using htasks
        · simp only [if_pos rfl]
          exact none_mem_completion_collect _ order (by simpa using hperm) htasks
      rw [if_neg (split_failures_ne_nil _ 0 hres)]
  · rfl

/-- Witness for C5: the two-batch call `["a", "bb"]` with batch `["a"]`
failing, awaited in the completion order `[1, 0]`. -/
theorem claim_C5_witness :
    AsyncXinferenceClient.embed_concurrent stub_embed_fail_a [1, 0] true two_texts 1 = none ∧
      (AsyncInferenceBenchmark.generate_and_cache_vectors stub_embed_fail_a two_docs 1
          empty_store).vectors 1 = some [2] :=
  claim_C5_whole_call_fails stub_embed_fail_a [1, 0] true two_texts 1 (by decide)
    ⟨["a"], by decide, by decide⟩

/-- Counterexample to claim C5 as stated: in the repository the vectors of a
generation call with a failed batch do reach the Cache Writer — the corpus
`[d0 ↦ "a", d1 ↦ "bb"]` batched at size 1 has its first batch fail, yet the
surviving second batch is written to the store at offset 1 (and the id cell
is written alongside). -/
theorem claim_C5_counterexample :
    stub_embed_fail_a ["a"] = none ∧
      (AsyncInferenceBenchmark.generate_and_cache_vectors stub_embed_fail_a two_docs 1
          empty_store).vectors 1 = some [2] ∧
      (AsyncInferenceBenchmark.generate_and_cache_vectors stub_embed_fail_a two_docs 1
          empty_store).vectors 1 ≠ none ∧
      (AsyncInferenceBenchmark.generate_and_cache_vectors stub_embed_fail_a two_docs 1
          empty_store).ids 1 = some "d1" := by
  refine ⟨rfl, rfl, ?_, rfl⟩
  rw [show (AsyncInferenceBenchmark.generate_and_cache_vectors stub_embed_fail_a two_docs 1
      empty_store).vectors 1 = some [2] from rfl]
  simp

/-- Claim C1 is violated by the source: with the default
`show_progress=True`, `embed_concurrent` iterates `asyncio.as_completed` and
stacks the batch results in completion order.  Input `["a", "bb"]` split
into two one-text batches against a healthy stub service (row `[1]` for
`"a"`, row `[2]` for `"bb"`): when batch 1 completes before batch 0 — the
completion order `[1, 0]`, a permutation of the task indices — the call
succeeds with rows `[[2], [1]]`, which is not the input-order row list
`[[1], [2]]`: output row 0 is not the embedding of input text 0. -/
theorem claim_C1_order_violation :
    List.Perm [1, 0] (List.range 2) ∧
      (AsyncXinferenceClient.chunks 1 two_texts).length = 2 ∧
      AsyncXinferenceClient.embed_concurrent stub_embed_ok [1, 0] true two_texts 1 =
        some [[2], [1]] ∧
      AsyncXinferenceClient.embed_concurrent stub_embed_ok [1, 0] true two_texts 1 ≠
        some (two_texts.map stub_row) := by
  refine ⟨by decide, rfl, rfl, by decide⟩

/-! ### Cache writer lemmas -/

/-- Two `write_batch` calls over disjoint offset ranges commute: the stored
contents do not depend on which of the two batches is written first. -/
theorem write_batch_comm (b1 b2 : VectorCache.CacheBatch) (s : VectorCache.Store)
    (h : VectorCache.BatchDisjoint b1 b2) :
    VectorCache.write_batch b2.vectors b2.ids b2.start_idx
        (VectorCache.write_batch b1.vectors b1.ids b1.start_idx s) =
      VectorCache.write_batch b1.vectors b1.ids b1.start_idx
        (VectorCache.write_batch b2.vectors b2.ids b2.start_idx s) := by
  have hd : b1.start_idx + b1.vectors.length ≤ b2.start_idx ∨
      b2.start_idx + b2.vectors.length ≤ b1.start_idx := h
  ext n <;>
    simp only [VectorCache.write_batch] <;>
    by_cases h1 : b1.start_idx ≤ n ∧ n < b1.start_idx + b1.vectors.length <;>
    by_cases h2 : b2.start_idx ≤ n ∧ n < b2.start_idx + b2.vectors.length <;>
    first
      | (exfalso; omega)
      | simp [h1, h2]

/-- Writing a batch before a list of batches all disjoint from it is the
same as writing it afterwards. -/
theorem write_batches_push (b : VectorCache.CacheBatch) :
    ∀ (l : List VectorCache.CacheBatch) (s : VectorCache.Store),
      (∀ x ∈ l, VectorCache.BatchDisjoint b x) →
      VectorCache.write_batches l
          (VectorCache.write_batch b.vectors b.ids b.start_idx s) =
        VectorCache.write_batch b.vectors b.ids b.start_idx
          (VectorCache.write_batches l s)
  | [], s, _ => rfl
  | x :: l, s, h => by
      simp only [VectorCache.write_batches, List.foldl_cons]
      rw [write_batch_comm b x s (h x (List.mem_cons_self x l))]
      exact write_batches_push b l _ (fun y hy => h y (List.mem_cons_of_mem x hy))

/-- Claim C9: for a set of batches whose offset ranges are pairwise
disjoint (in particular when they partition the store without overlap),
writing them through `write_batch` in reverse offset order produces stored
contents — vector cells and id cells — identical to writing them in forward
order. -/
theorem claim_C9_write_order_irrelevant (bs : List VectorCache.CacheBatch)
    (s : VectorCache.Store) (h : bs.Pairwise VectorCache.BatchDisjoint) :
    VectorCache.write_batches bs.reverse s = VectorCache.write_batches bs s := by
  induction bs generalizing s with
  | nil => rfl
  | cons b l ih =>
      rcases List.pairwise_cons.mp h with ⟨hb, hl⟩
      have happ : VectorCache.write_batches (l.reverse ++ [b]) s =
          VectorCache.write_batch b.vectors b.ids b.start_idx
            (VectorCache.write_batches l.reverse s) := by
        simp [VectorCache.write_batches, List.foldl_append]
      have hcons : VectorCache.write_batches (b :: l) s =
          VectorCache.write_batches l
            (VectorCache.write_batch b.vectors b.ids b.start_idx s) := by
        simp [VectorCache.write_batches]
      rw [List.reverse_cons, happ, ih s hl, hcons]
      exact (write_batches_push b l s hb).symm

/-- Witness for C9 at two concrete disjoint batches. -/
theorem claim_C9_witness :
    List.Pairwise VectorCache.BatchDisjoint fixture_batches ∧
      VectorCache.write_batches fixture_batches.reverse empty_store =
        VectorCache.write_batches fixture_batches empty_store :=
  ⟨by decide, claim_C9_write_order_irrelevant fixture_batches empty_store (by decide)⟩

end VDB
